import Mathlib

/-!
# RTR-COIN ledger service (`server.js`)

A shallow embedding of the request handlers of `server.js` and proofs about them.

Modelling conventions

* The two files the server works on are the state: `DATA_FILE` holds the parsed
  JSON array of user records, `TRANSACTION_FILE` holds the text of the log.
* Amounts, balances and wallets are JavaScript numbers carrying integer values;
  they are modelled as `Int` (exact arithmetic), and an amount in a log message
  is its decimal numeral.
* `lastAdded` is `null` or the ISO string written by `now.toISOString()`, which
  `new Date(...)` reads back to the same millisecond; it is modelled as
  `Option Int`, the time in milliseconds since the epoch.
* The clock and the outcome of each file-system call are inputs of a request
  (`Env`): `new Date()` of the handler, `new Date()` inside `logTransaction`, and
  whether `readFileSync`, `writeFileSync`, `appendFileSync` return or throw.
* `users.find(...)` returns a reference to the first matching record, and the
  handler mutates the record through it; `modifyFirst` is that mutation.
-/

namespace RTRCoin

/-- One record of the JSON array in `DATA_FILE`, as pushed by `/addUser`. -/
structure Account where
  username : String
  balance : Int
  wallet : Int
  lastAdded : Option Int
  deriving DecidableEq, Repr

/-- Contents of the two files: the parsed user array and the log text. -/
structure Files where
  DATA_FILE : List Account
  TRANSACTION_FILE : String
  deriving DecidableEq, Repr

/-- Inputs of one request that do not come from its body: the clock readings and
whether each file-system call returns (`true`) or throws (`false`). -/
structure Env where
  now : Int
  logNow : Int
  readOk : Bool
  writeOk : Bool
  appendOk : Bool
  deriving DecidableEq, Repr

/-- What the handler sends back. `json` is `res.status(status).json({success, message})`
(status 200 when the handler calls `res.json` directly), `walletJson` is
`res.json({success: true, balance})`, `usersJson` is `res.json(users)`, and
`uncaught` is an exception that leaves the handler (a throwing `writeFileSync` or
`appendFileSync`), so that no handler response is sent. -/
inductive Response where
  | json (status : Nat) (success : Bool) (message : Option String)
  | walletJson (balance : Int)
  | usersJson (users : List Account)
  | uncaught
  deriving DecidableEq, Repr

/-- `users.find(user => user.username === username)`: the first matching record. -/
def find (users : List Account) (username : String) : Option Account :=
  users.find? (fun user => user.username == username)

/-- Mutation of the record `users.find(...)` returned: the first record with this
username is replaced by `f` of it, every other record stays where it is. -/
def modifyFirst (username : String) (f : Account → Account) : List Account → List Account
  | [] => []
  | user :: rest =>
    if user.username = username then f user :: rest
    else user :: modifyFirst username f rest

/-- `user.balance += amount`. -/
def credit (amount : Int) (user : Account) : Account :=
  { user with balance := user.balance + amount }

/-- `from.balance -= amount`. -/
def debit (amount : Int) (user : Account) : Account :=
  { user with balance := user.balance - amount }

/-- The writes of `/addToWallet` to the record: `user.wallet = 0` when `days >= 30`,
then `user.wallet += amount` and `user.lastAdded = now.toISOString()`. -/
def topUp (days : Int) (amount : Int) (now : Int) (user : Account) : Account :=
  { user with
    wallet := (if days ≥ 30 then 0 else user.wallet) + amount
    lastAdded := some now }

/-- Number `n` written with at least `width` decimal digits. -/
def pad (width : Nat) (n : Nat) : String :=
  let digits := toString n
  String.mk (List.replicate (width - digits.length) '0') ++ digits

/-- `Date.prototype.toISOString` for a time value in milliseconds since the epoch
(proleptic Gregorian calendar, UTC; years outside 0..9999 take a sign and six digits). -/
def toISOString (ms : Int) : String :=
  let days := Int.fdiv ms 86400000
  let msOfDay := (Int.fmod ms 86400000).toNat
  let z := days + 719468
  let era := Int.fdiv z 146097
  let doe := (z - era * 146097).toNat
  let yoe := (doe - doe / 1460 + doe / 36524 - doe / 146096) / 365
  let doy := doe - (365 * yoe + yoe / 4 - yoe / 100)
  let mp := (5 * doy + 2) / 153
  let day := doy - (153 * mp + 2) / 5 + 1
  let month := if mp < 10 then mp + 3 else mp - 9
  let year : Int := (yoe : Int) + era * 400 + (if month ≤ 2 then 1 else 0)
  let yearText :=
    if 0 ≤ year ∧ year ≤ 9999 then pad 4 year.toNat
    else (if year < 0 then "-" else "+") ++ pad 6 year.natAbs
  yearText ++ "-" ++ pad 2 month ++ "-" ++ pad 2 day ++ "T"
    ++ pad 2 (msOfDay / 3600000) ++ ":" ++ pad 2 (msOfDay / 60000 % 60) ++ ":"
    ++ pad 2 (msOfDay / 1000 % 60) ++ "." ++ pad 3 (msOfDay % 1000) ++ "Z"

/-- The text `logTransaction(message)` appends to `TRANSACTION_FILE`. -/
def logLine (logNow : Int) (message : String) : String :=
  toISOString logNow ++ " - " ++ message ++ "\n"

/-- `logTransaction(message)`: `none` when `appendFileSync` throws, otherwise the
log with the new line appended. -/
def logTransaction (env : Env) (message : String) (log : String) : Option String :=
  if env.appendOk then some (log ++ logLine env.logNow message) else none

/-- Tail shared by the three mutating handlers: `writeFileSync(DATA_FILE, ...)`,
then `logTransaction(message)`, then `res.json({ success: true })`. -/
def saveAndLog (env : Env) (s : Files) (users : List Account) (message : String) :
    Response × Files :=
  if env.writeOk then
    match logTransaction env message s.TRANSACTION_FILE with
    | some log => (Response.json 200 true none, ⟨users, log⟩)
    | none => (Response.uncaught, ⟨users, s.TRANSACTION_FILE⟩)
  else (Response.uncaught, s)

/-- Handler of `POST /addUser`. The `Array.isArray(users)` test holds for every
`DATA_FILE` of this type. -/
def addUser (env : Env) (username : String) (s : Files) : Response × Files :=
  if env.readOk then
    match find s.DATA_FILE username with
    | some _ => (Response.json 400 false (some "User already exists!"), s)
    | none =>
      if env.writeOk then
        (Response.json 200 true (some "User added successfully!"),
          ⟨s.DATA_FILE ++ [⟨username, 0, 0, none⟩], s.TRANSACTION_FILE⟩)
      else (Response.uncaught, s)
  else (Response.json 500 false (some "Error reading data file."), s)

/-- Handler of `POST /deposit`. -/
def deposit (env : Env) (username : String) (amount : Int) (s : Files) : Response × Files :=
  if env.readOk then
    match find s.DATA_FILE username with
    | none => (Response.json 404 false (some "User not found!"), s)
    | some _ =>
      saveAndLog env s
        (modifyFirst username (credit amount) s.DATA_FILE)
        ("Deposited " ++ toString amount ++ " to " ++ username)
  else (Response.json 500 false (some "Error reading data file."), s)

/-- Handler of `POST /transfer`. -/
def transfer (env : Env) (fromUser toUser : String) (amount : Int) (s : Files) :
    Response × Files :=
  if env.readOk then
    match find s.DATA_FILE fromUser, find s.DATA_FILE toUser with
    | some sender, some _ =>
      if sender.balance < amount then
        (Response.json 400 false (some "Insufficient funds!"), s)
      else
        saveAndLog env s
          (modifyFirst toUser (credit amount)
            (modifyFirst fromUser (debit amount) s.DATA_FILE))
          ("Transferred " ++ toString amount ++ " from " ++ fromUser ++ " to " ++ toUser)
    | _, _ => (Response.json 404 false (some "User(s) not found!"), s)
  else (Response.json 500 false (some "Error reading data file."), s)

/-- Handler of `GET /wallet/:username`. -/
def getWallet (env : Env) (username : String) (s : Files) : Response × Files :=
  if env.readOk then
    match find s.DATA_FILE username with
    | none => (Response.json 404 false (some "User not found!"), s)
    | some user => (Response.walletJson user.wallet, s)
  else (Response.json 500 false (some "Error reading data file."), s)

/-- The `daysElapsed` of `/addToWallet`:
`lastAdded ? Math.floor((now - lastAdded) / (1000 * 60 * 60 * 24)) : 30`. -/
def daysElapsed (now : Int) (lastAdded : Option Int) : Int :=
  match lastAdded with
  | some t => Int.fdiv (now - t) (1000 * 60 * 60 * 24)
  | none => 30

/-- Handler of `POST /addToWallet`. -/
def addToWallet (env : Env) (username : String) (amount : Int) (s : Files) :
    Response × Files :=
  if env.readOk then
    match find s.DATA_FILE username with
    | none => (Response.json 404 false (some "User not found!"), s)
    | some user =>
      if daysElapsed env.now user.lastAdded < 30 ∧ amount + user.wallet > 100 then
        (Response.json 400 false (some "Monthly limit of $100 exceeded!"), s)
      else
        saveAndLog env s
          (modifyFirst username
            (topUp (daysElapsed env.now user.lastAdded) amount env.now) s.DATA_FILE)
          ("Added " ++ toString amount ++ " to " ++ username ++ "\x27s wallet")
  else (Response.json 500 false (some "Error reading data file."), s)

/-- Handler of `GET /users`. -/
def listUsers (env : Env) (s : Files) : Response × Files :=
  if env.readOk then (Response.usersJson s.DATA_FILE, s)
  else (Response.json 500 false (some "Error reading data file."), s)

/-- A request to one of the six ledger routes. -/
inductive Op where
  | addUser (username : String)
  | deposit (username : String) (amount : Int)
  | transfer (fromUser toUser : String) (amount : Int)
  | getWallet (username : String)
  | addToWallet (username : String) (amount : Int)
  | listUsers
  deriving DecidableEq, Repr

/-- The handler the request is routed to. -/
def step (env : Env) (op : Op) (s : Files) : Response × Files :=
  match op with
  | Op.addUser username => addUser env username s
  | Op.deposit username amount => deposit env username amount s
  | Op.transfer fromUser toUser amount => transfer env fromUser toUser amount s
  | Op.getWallet username => getWallet env username s
  | Op.addToWallet username amount => addToWallet env username amount s
  | Op.listUsers => listUsers env s

/-- Files left by a sequence of requests, served one after the other. -/
def run (requests : List (Env × Op)) (s : Files) : Files :=
  requests.foldl (fun acc r => (step r.1 r.2 acc).2) s

/-- Files at start-up: `DATA_FILE` is initialised to `[]`, the log does not exist yet. -/
def init : Files := ⟨[], ""⟩

/-- The amount carried by a request (0 for the requests without one). -/
def Op.amount : Op → Int
  | Op.deposit _ amount => amount
  | Op.transfer _ _ amount => amount
  | Op.addToWallet _ amount => amount
  | _ => 0

/-- The usernames of the stored records, in stored order. -/
def usernames (users : List Account) : List String :=
  users.map (fun user => user.username)

/-- No two stored records share a username. -/
def Unique (users : List Account) : Prop := (usernames users).Nodup

/-- Every stored balance and wallet is non-negative. -/
def NonNeg (users : List Account) : Prop :=
  ∀ user ∈ users, 0 ≤ user.balance ∧ 0 ≤ user.wallet

/-- All three file-system calls of the request return normally. -/
def FsWorks (env : Env) : Prop :=
  env.readOk = true ∧ env.writeOk = true ∧ env.appendOk = true

instance (users : List Account) : Decidable (Unique users) := by
  unfold Unique; infer_instance

instance (users : List Account) : Decidable (NonNeg users) := by
  unfold NonNeg; infer_instance

instance (env : Env) : Decidable (FsWorks env) := by
  unfold FsWorks; infer_instance

/-- The username and balance of every stored record, in stored order. -/
def balances (users : List Account) : List (String × Int) :=
  users.map (fun user => (user.username, user.balance))

/-! ## Lemmas on `find` and `modifyFirst` -/

theorem find_nil (n : String) : find [] n = none := rfl

theorem find_cons (u : Account) (us : List Account) (n : String) :
    find (u :: us) n = if u.username = n then some u else find us n := by
  unfold find
  by_cases h : u.username = n <;> simp [List.find?_cons, h]

theorem find_some_username {us : List Account} {n : String} {u : Account}
    (h : find us n = some u) : u.username = n := by
  induction us with
  | nil => simp [find_nil] at h
  | cons a as ih =>
    rw [find_cons] at h
    by_cases ha : a.username = n
    · rw [if_pos ha] at h
      cases h
      exact ha
    · rw [if_neg ha] at h
      exact ih h

theorem find_some_mem {us : List Account} {n : String} {u : Account}
    (h : find us n = some u) : u ∈ us := by
  induction us with
  | nil => simp [find_nil] at h
  | cons a as ih =>
    rw [find_cons] at h
    by_cases ha : a.username = n
    · rw [if_pos ha] at h
      cases h
      exact List.mem_cons_self _ _
    · rw [if_neg ha] at h
      exact List.mem_cons_of_mem _ (ih h)

theorem find_eq_none_iff (us : List Account) (n : String) :
    find us n = none ↔ ∀ u ∈ us, u.username ≠ n := by
  induction us with
  | nil => simp [find_nil]
  | cons a as ih =>
    rw [find_cons]
    by_cases ha : a.username = n
    · simp [ha]
    · simp [ha, ih]

theorem find_eq_none_iff_not_mem (us : List Account) (n : String) :
    find us n = none ↔ n ∉ usernames us := by
  rw [find_eq_none_iff]
  simp [usernames]

theorem find_append (us vs : List Account) (n : String) :
    find (us ++ vs) n = (find us n).or (find vs n) := by
  unfold find
  exact List.find?_append

theorem usernames_modifyFirst (n : String) (f : Account → Account)
    (hf : ∀ u, (f u).username = u.username) (us : List Account) :
    usernames (modifyFirst n f us) = usernames us := by
  induction us with
  | nil => rfl
  | cons a as ih =>
    simp only [modifyFirst]
    by_cases ha : a.username = n
    · simp [ha, usernames, hf]
    · rw [if_neg ha]
      simp only [usernames, List.map_cons] at ih ⊢
      rw [ih]

theorem find_modifyFirst_same (n : String) (f : Account → Account)
    (hf : ∀ u, (f u).username = u.username) (us : List Account) :
    find (modifyFirst n f us) n = (find us n).map f := by
  induction us with
  | nil => rfl
  | cons a as ih =>
    simp only [modifyFirst]
    by_cases ha : a.username = n
    · rw [if_pos ha, find_cons, find_cons, if_pos ha, if_pos (by rw [hf]; exact ha)]
      rfl
    · rw [if_neg ha, find_cons, find_cons, if_neg ha, if_neg ha]
      exact ih

theorem credit_username (amount : Int) (u : Account) :
    (credit amount u).username = u.username := rfl

theorem debit_username (amount : Int) (u : Account) :
    (debit amount u).username = u.username := rfl

theorem topUp_username (days amount now : Int) (u : Account) :
    (topUp days amount now u).username = u.username := rfl

theorem unique_modifyFirst (n : String) (f : Account → Account)
    (hf : ∀ u, (f u).username = u.username) (us : List Account) (hu : Unique us) :
    Unique (modifyFirst n f us) := by
  unfold Unique
  rw [usernames_modifyFirst n f hf]
  exact hu

/-- With a working file system, the three mutating handlers end by saving the new
array, appending the log line and answering `{ success: true }`. -/
theorem saveAndLog_works (env : Env) (hfs : FsWorks env) (s : Files) (users : List Account)
    (message : String) :
    saveAndLog env s users message
      = (Response.json 200 true none,
          ⟨users, s.TRANSACTION_FILE ++ logLine env.logNow message⟩) := by
  obtain ⟨_, hw, ha⟩ := hfs
  simp [saveAndLog, logTransaction, hw, ha]

/-- The array `saveAndLog` leaves is the old one or the one it was given. -/
theorem saveAndLog_data (env : Env) (s : Files) (users : List Account) (message : String) :
    (saveAndLog env s users message).2.DATA_FILE = s.DATA_FILE
      ∨ (saveAndLog env s users message).2.DATA_FILE = users := by
  unfold saveAndLog logTransaction
  cases env.writeOk <;> cases env.appendOk <;> simp

/-- `saveAndLog` never answers with a `success: false` body. -/
theorem saveAndLog_ne_failure (env : Env) (s : Files) (users : List Account)
    (message : String) (status : Nat) (m : Option String) :
    (saveAndLog env s users message).1 ≠ Response.json status false m := by
  unfold saveAndLog logTransaction
  cases env.writeOk <;> cases env.appendOk <;> simp

/-! ## Transfer -/

/-- C2. With the data file readable, `/transfer` answers "User(s) not found!" exactly
when one of the two usernames is absent, and "Insufficient funds!" exactly when
both are present and the sender's balance is below the amount; after either
answer the data file and the log are what they were. -/
theorem transfer_failures (env : Env) (s : Files) (fromUser toUser : String) (amount : Int)
    (hread : env.readOk = true) :
    ((transfer env fromUser toUser amount s).1
        = Response.json 404 false (some "User(s) not found!")
      ↔ (find s.DATA_FILE fromUser = none ∨ find s.DATA_FILE toUser = none))
    ∧ ((transfer env fromUser toUser amount s).1
        = Response.json 400 false (some "Insufficient funds!")
      ↔ ∃ sender receiver, find s.DATA_FILE fromUser = some sender
          ∧ find s.DATA_FILE toUser = some receiver ∧ sender.balance < amount)
    ∧ ((transfer env fromUser toUser amount s).1
          = Response.json 404 false (some "User(s) not found!")
        ∨ (transfer env fromUser toUser amount s).1
          = Response.json 400 false (some "Insufficient funds!")
      → (transfer env fromUser toUser amount s).2 = s) := by
  unfold transfer
  rw [if_pos hread]
  cases hf : find s.DATA_FILE fromUser with
  | none => simp
  | some sender =>
    cases ht : find s.DATA_FILE toUser with
    | none => simp
    | some receiver =>
      by_cases hlt : sender.balance < amount
      · simp [hlt]
      · have h1 := saveAndLog_ne_failure env s
          (modifyFirst toUser (credit amount)
            (modifyFirst fromUser (debit amount) s.DATA_FILE))
          ("Transferred " ++ toString amount ++ " from " ++ fromUser ++ " to " ++ toUser)
        simp [hlt, h1]

/-- C2 at a store holding only A: the transfer to the absent B is answered
"User(s) not found!" and nothing is written. -/
theorem transfer_failures_witness :
    (transfer ⟨0, 0, true, true, true⟩ "A" "B" 40 ⟨[⟨"A", 100, 0, none⟩], "log\n"⟩).1
        = Response.json 404 false (some "User(s) not found!")
    ∧ (transfer ⟨0, 0, true, true, true⟩ "A" "B" 40 ⟨[⟨"A", 100, 0, none⟩], "log\n"⟩).2
        = ⟨[⟨"A", 100, 0, none⟩], "log\n"⟩ := by
  have h := transfer_failures ⟨0, 0, true, true, true⟩ ⟨[⟨"A", 100, 0, none⟩], "log\n"⟩
    "A" "B" 40 rfl
  have h404 := h.1.mpr (Or.inr (by decide))
  exact ⟨h404, h.2.2 (Or.inl h404)⟩

/-! ## Non-negative balances and wallets -/

theorem mem_modifyFirst {n : String} {f : Account → Account} {us : List Account}
    {v : Account} (hv : v ∈ modifyFirst n f us) :
    v ∈ us ∨ ∃ u, find us n = some u ∧ v = f u := by
  induction us with
  | nil => simp [modifyFirst] at hv
  | cons a as ih =>
    simp only [modifyFirst] at hv
    rw [find_cons]
    by_cases ha : a.username = n
    · rw [if_pos ha] at hv ⊢
      rcases List.mem_cons.mp hv with h | h
      · exact Or.inr ⟨a, rfl, h⟩
      · exact Or.inl (List.mem_cons_of_mem _ h)
    · rw [if_neg ha] at hv ⊢
      rcases List.mem_cons.mp hv with h | h
      · exact Or.inl (h ▸ List.mem_cons_self _ _)
      · rcases ih h with h2 | h2
        · exact Or.inl (List.mem_cons_of_mem _ h2)
        · exact Or.inr h2

theorem nonNeg_modifyFirst (n : String) (f : Account → Account) (us : List Account)
    (hus : NonNeg us)
    (hf : ∀ u, find us n = some u → 0 ≤ (f u).balance ∧ 0 ≤ (f u).wallet) :
    NonNeg (modifyFirst n f us) := by
  intro v hv
  rcases mem_modifyFirst hv with h | ⟨u, hu, rfl⟩
  · exact hus v h
  · exact hf u hu

theorem nonNeg_saveAndLog (env : Env) (s : Files) (users : List Account) (message : String)
    (hs : NonNeg s.DATA_FILE) (hu : NonNeg users) :
    NonNeg (saveAndLog env s users message).2.DATA_FILE := by
  rcases saveAndLog_data env s users message with h | h <;> rw [h] <;> assumption

theorem nonNeg_addUser (env : Env) (username : String) (s : Files)
    (hs : NonNeg s.DATA_FILE) : NonNeg (addUser env username s).2.DATA_FILE := by
  unfold addUser
  split
  · split
    · exact hs
    · split
      · intro v hv
        rcases List.mem_append.mp hv with h | h
        · exact hs v h
        · rw [List.mem_singleton] at h
          subst h
          exact ⟨le_refl _, le_refl _⟩
      · exact hs
  · exact hs

theorem nonNeg_deposit (env : Env) (username : String) (amount : Int) (s : Files)
    (hs : NonNeg s.DATA_FILE) (ha : 0 ≤ amount) :
    NonNeg (deposit env username amount s).2.DATA_FILE := by
  unfold deposit
  split
  · split
    · exact hs
    · apply nonNeg_saveAndLog env s _ _ hs
      apply nonNeg_modifyFirst _ _ _ hs
      intro u hu
      have := hs u (find_some_mem hu)
      exact ⟨by simp only [credit]; omega, this.2⟩
  · exact hs

theorem nonNeg_transfer (env : Env) (fromUser toUser : String) (amount : Int) (s : Files)
    (hs : NonNeg s.DATA_FILE) (ha : 0 ≤ amount) :
    NonNeg (transfer env fromUser toUser amount s).2.DATA_FILE := by
  unfold transfer
  split
  · split
    · rename_i sender receiver hfrom hto
      split
      · exact hs
      · rename_i hlt
        apply nonNeg_saveAndLog env s _ _ hs
        have h1 : NonNeg (modifyFirst fromUser (debit amount) s.DATA_FILE) := by
          apply nonNeg_modifyFirst _ _ _ hs
          intro u hu
          rw [hfrom] at hu
          cases hu
          have := hs sender (find_some_mem hfrom)
          exact ⟨by simp only [debit]; omega, this.2⟩
        apply nonNeg_modifyFirst _ _ _ h1
        intro u hu
        have := h1 u (find_some_mem hu)
        exact ⟨by simp only [credit]; omega, this.2⟩
    · exact hs
  · exact hs

theorem nonNeg_addToWallet (env : Env) (username : String) (amount : Int) (s : Files)
    (hs : NonNeg s.DATA_FILE) (ha : 0 ≤ amount) :
    NonNeg (addToWallet env username amount s).2.DATA_FILE := by
  unfold addToWallet
  split
  · split
    · exact hs
    · split
      · exact hs
      · apply nonNeg_saveAndLog env s _ _ hs
        apply nonNeg_modifyFirst _ _ _ hs
        intro u hu
        have := hs u (find_some_mem hu)
        refine ⟨this.1, ?_⟩
        simp only [topUp]
        split <;> omega
  · exact hs

theorem nonNeg_getWallet (env : Env) (username : String) (s : Files)
    (hs : NonNeg s.DATA_FILE) : NonNeg (getWallet env username s).2.DATA_FILE := by
  unfold getWallet
  split
  · split <;> exact hs
  · exact hs

theorem nonNeg_listUsers (env : Env) (s : Files)
    (hs : NonNeg s.DATA_FILE) : NonNeg (listUsers env s).2.DATA_FILE := by
  unfold listUsers
  split <;> exact hs

theorem nonNeg_step (env : Env) (op : Op) (s : Files)
    (hs : NonNeg s.DATA_FILE) (ha : 0 ≤ op.amount) :
    NonNeg (step env op s).2.DATA_FILE := by
  cases op with
  | addUser username => exact nonNeg_addUser env username s hs
  | deposit username amount => exact nonNeg_deposit env username amount s hs ha
  | transfer fromUser toUser amount => exact nonNeg_transfer env fromUser toUser amount s hs ha
  | getWallet username => exact nonNeg_getWallet env username s hs
  | addToWallet username amount => exact nonNeg_addToWallet env username amount s hs ha
  | listUsers => exact nonNeg_listUsers env s hs

theorem run_cons (r : Env × Op) (rs : List (Env × Op)) (s : Files) :
    run (r :: rs) s = run rs (step r.1 r.2 s).2 := rfl

/-- C3, as stated, fails: on the store reached by creating "a", the accepted
request `deposit("a", -5)` leaves the balance of "a" at -5. -/
theorem nonNeg_counterexample :
    NonNeg (run [(⟨0, 0, true, true, true⟩, Op.addUser "a")] init).DATA_FILE
    ∧ (step ⟨0, 0, true, true, true⟩ (Op.deposit "a" (-5))
        (run [(⟨0, 0, true, true, true⟩, Op.addUser "a")] init)).1
        = Response.json 200 true none
    ∧ (step ⟨0, 0, true, true, true⟩ (Op.deposit "a" (-5))
        (run [(⟨0, 0, true, true, true⟩, Op.addUser "a")] init)).2.DATA_FILE
        = [⟨"a", -5, 0, none⟩]
    ∧ ¬ NonNeg (step ⟨0, 0, true, true, true⟩ (Op.deposit "a" (-5))
        (run [(⟨0, 0, true, true, true⟩, Op.addUser "a")] init)).2.DATA_FILE := by
  decide

/-- C3, amended. From a store in which every balance and wallet is non-negative,
every sequence of requests whose amounts are non-negative leaves every balance and
wallet non-negative (whatever the clock and the file system do); and a deposit of a
non-negative amount to an existing user, once saved, leaves that user's balance at
least as large as before. -/
theorem nonNeg_preserved (requests : List (Env × Op)) (s : Files)
    (hs : NonNeg s.DATA_FILE) (hamount : ∀ r ∈ requests, 0 ≤ r.2.amount) :
    NonNeg (run requests s).DATA_FILE
    ∧ ∀ (env : Env) (username : String) (amount : Int) (user : Account),
        FsWorks env → 0 ≤ amount → find (run requests s).DATA_FILE username = some user →
        (deposit env username amount (run requests s)).1 = Response.json 200 true none
        ∧ ∃ after, find (deposit env username amount (run requests s)).2.DATA_FILE username
              = some after
            ∧ user.balance ≤ after.balance := by
  constructor
  · induction requests generalizing s with
    | nil => exact hs
    | cons r rs ih =>
      rw [run_cons]
      apply ih
      · exact nonNeg_step r.1 r.2 s hs (hamount r (List.mem_cons_self _ _))
      · intro q hq
        exact hamount q (List.mem_cons_of_mem _ hq)
  · intro env username amount user hfs ha hfind
    have hrun : deposit env username amount (run requests s)
        = (Response.json 200 true none,
            ⟨modifyFirst username (credit amount) (run requests s).DATA_FILE,
             (run requests s).TRANSACTION_FILE
              ++ logLine env.logNow ("Deposited " ++ toString amount ++ " to " ++ username)⟩) := by
      unfold deposit
      rw [if_pos hfs.1, hfind]
      exact saveAndLog_works env hfs _ _ _
    rw [hrun]
    refine ⟨rfl, credit amount user, ?_, ?_⟩
    · show find (modifyFirst username (credit amount) (run requests s).DATA_FILE) username = _
      rw [find_modifyFirst_same username (credit amount) (credit_username amount), hfind]
      rfl
    · simp only [credit]
      omega

/-- C3, amended, on a run: create "a" and "b", deposit 100 to "a", transfer 40 to "b",
top up the wallet of "b" by 90. -/
theorem nonNeg_preserved_witness :
    NonNeg (run
      [(⟨0, 0, true, true, true⟩, Op.addUser "a"), (⟨0, 0, true, true, true⟩, Op.addUser "b"),
       (⟨0, 0, true, true, true⟩, Op.deposit "a" 100),
       (⟨0, 0, true, true, true⟩, Op.transfer "a" "b" 40),
       (⟨0, 0, true, true, true⟩, Op.addToWallet "b" 90)] init).DATA_FILE :=
  (nonNeg_preserved
    [(⟨0, 0, true, true, true⟩, Op.addUser "a"), (⟨0, 0, true, true, true⟩, Op.addUser "b"),
     (⟨0, 0, true, true, true⟩, Op.deposit "a" 100),
     (⟨0, 0, true, true, true⟩, Op.transfer "a" "b" 40),
     (⟨0, 0, true, true, true⟩, Op.addToWallet "b" 90)] init
    (by decide) (by decide)).1

/-! ## Wallet top-up -/

/-- What `/addToWallet` does once the user is found and the cap test has passed,
with a working file system. -/
theorem addToWallet_accepts (env : Env) (s : Files) (username : String) (amount : Int)
    (user : Account) (hfs : FsWorks env) (hfind : find s.DATA_FILE username = some user)
    (hcap : ¬ (daysElapsed env.now user.lastAdded < 30 ∧ amount + user.wallet > 100)) :
    addToWallet env username amount s
      = (Response.json 200 true none,
          ⟨modifyFirst username (topUp (daysElapsed env.now user.lastAdded) amount env.now)
            s.DATA_FILE,
           s.TRANSACTION_FILE ++ logLine env.logNow
            ("Added " ++ toString amount ++ " to " ++ username ++ "\x27s wallet")⟩) := by
  unfold addToWallet
  rw [if_pos hfs.1, hfind]
  simp only [if_neg hcap]
  exact saveAndLog_works env hfs s _ _

/-- What `/addToWallet` does once the user is found and the cap test fails. -/
theorem addToWallet_rejects (env : Env) (s : Files) (username : String) (amount : Int)
    (user : Account) (hread : env.readOk = true)
    (hfind : find s.DATA_FILE username = some user)
    (hcap : daysElapsed env.now user.lastAdded < 30 ∧ amount + user.wallet > 100) :
    addToWallet env username amount s
      = (Response.json 400 false (some "Monthly limit of $100 exceeded!"), s) := by
  unfold addToWallet
  rw [if_pos hread, hfind]
  simp only [if_pos hcap]

/-- C5. For an existing user whose `lastAdded` is null or at least 30 whole days
before the call, `/addToWallet` answers `{ success: true }` for every amount, and
the saved record has wallet equal to the amount alone and `lastAdded` equal to the
time of the call (file system working). -/
theorem addToWallet_window_elapsed (env : Env) (s : Files) (username : String)
    (amount : Int) (user : Account)
    (hfs : FsWorks env) (hfind : find s.DATA_FILE username = some user)
    (hwin : user.lastAdded = none
      ∨ ∃ t, user.lastAdded = some t ∧ 30 ≤ Int.fdiv (env.now - t) (1000 * 60 * 60 * 24)) :
    (addToWallet env username amount s).1 = Response.json 200 true none
    ∧ find (addToWallet env username amount s).2.DATA_FILE username
        = some { user with wallet := amount, lastAdded := some env.now } := by
  have h30 : daysElapsed env.now user.lastAdded ≥ 30 := by
    rcases hwin with h | ⟨t, h, ht⟩
    · rw [h]
      exact le_refl _
    · rw [h]
      exact ht
  have hcap : ¬ (daysElapsed env.now user.lastAdded < 30 ∧ amount + user.wallet > 100) := by
    omega
  rw [addToWallet_accepts env s username amount user hfs hfind hcap]
  refine ⟨rfl, ?_⟩
  show find (modifyFirst username _ s.DATA_FILE) username = _
  rw [find_modifyFirst_same username _ (topUp_username _ _ _), hfind]
  simp [topUp, h30]

/-- C5, the examples of the specification: a never-funded wallet topped up by 90
holds 90, and a wallet of 90 last funded 31 days ago and topped up by 50 holds 50. -/
theorem addToWallet_window_elapsed_witness :
    find (addToWallet ⟨5, 5, true, true, true⟩ "a" 90
        ⟨[⟨"a", 0, 0, none⟩], ""⟩).2.DATA_FILE "a" = some ⟨"a", 0, 90, some 5⟩
    ∧ find (addToWallet ⟨31 * 86400000, 0, true, true, true⟩ "a" 50
        ⟨[⟨"a", 0, 90, some 0⟩], ""⟩).2.DATA_FILE "a"
        = some ⟨"a", 0, 50, some (31 * 86400000)⟩ :=
  ⟨(addToWallet_window_elapsed ⟨5, 5, true, true, true⟩ ⟨[⟨"a", 0, 0, none⟩], ""⟩ "a" 90
      ⟨"a", 0, 0, none⟩ (by decide) (by decide) (Or.inl rfl)).2,
   (addToWallet_window_elapsed ⟨31 * 86400000, 0, true, true, true⟩
      ⟨[⟨"a", 0, 90, some 0⟩], ""⟩ "a" 50 ⟨"a", 0, 90, some 0⟩ (by decide) (by decide)
      (Or.inr ⟨0, rfl, by decide⟩)).2⟩

/-- C6. When `/addToWallet` answers "User not found!" or the cap message, the data
file (every wallet, `lastAdded` and balance) and the log are what they were. -/
theorem addToWallet_rejected_unchanged (env : Env) (s : Files) (username : String)
    (amount : Int)
    (hrej : (addToWallet env username amount s).1
          = Response.json 404 false (some "User not found!")
        ∨ (addToWallet env username amount s).1
          = Response.json 400 false (some "Monthly limit of $100 exceeded!")) :
    (addToWallet env username amount s).2 = s := by
  by_cases hread : env.readOk = true
  · cases hfind : find s.DATA_FILE username with
    | none =>
      unfold addToWallet
      rw [if_pos hread, hfind]
    | some user =>
      by_cases hcap : daysElapsed env.now user.lastAdded < 30 ∧ amount + user.wallet > 100
      · rw [addToWallet_rejects env s username amount user hread hfind hcap]
      · have h1 := saveAndLog_ne_failure env s
          (modifyFirst username (topUp (daysElapsed env.now user.lastAdded) amount env.now)
            s.DATA_FILE)
          ("Added " ++ toString amount ++ " to " ++ username ++ "\x27s wallet")
        unfold addToWallet at hrej
        rw [if_pos hread, hfind] at hrej
        simp only [if_neg hcap] at hrej
        rcases hrej with h | h
        · exact absurd h (h1 _ _)
        · exact absurd h (h1 _ _)
  · unfold addToWallet
    rw [if_neg hread]

/-- C6, the example of the specification: after `addToWallet(90)` on a fresh account,
an immediate `addToWallet(20)` is answered with the cap message, nothing is written,
and the wallet is still 90. -/
theorem addToWallet_rejected_unchanged_witness :
    (addToWallet ⟨7, 8, true, true, true⟩ "a" 20
        (addToWallet ⟨7, 8, true, true, true⟩ "a" 90 ⟨[⟨"a", 0, 0, none⟩], ""⟩).2).1
      = Response.json 400 false (some "Monthly limit of $100 exceeded!")
    ∧ (addToWallet ⟨7, 8, true, true, true⟩ "a" 20
        (addToWallet ⟨7, 8, true, true, true⟩ "a" 90 ⟨[⟨"a", 0, 0, none⟩], ""⟩).2).2
      = (addToWallet ⟨7, 8, true, true, true⟩ "a" 90 ⟨[⟨"a", 0, 0, none⟩], ""⟩).2
    ∧ (addToWallet ⟨7, 8, true, true, true⟩ "a" 90 ⟨[⟨"a", 0, 0, none⟩], ""⟩).2.DATA_FILE
      = [⟨"a", 0, 90, some 7⟩] :=
  ⟨by decide,
   addToWallet_rejected_unchanged ⟨7, 8, true, true, true⟩
     (addToWallet ⟨7, 8, true, true, true⟩ "a" 90 ⟨[⟨"a", 0, 0, none⟩], ""⟩).2 "a" 20
     (Or.inr (by decide)),
   by decide⟩

/-! ## Account creation and username uniqueness -/

theorem find_isSome_iff (us : List Account) (n : String) :
    (∃ u, find us n = some u) ↔ ∃ u ∈ us, u.username = n := by
  constructor
  · rintro ⟨u, hu⟩
    exact ⟨u, find_some_mem hu, find_some_username hu⟩
  · rintro ⟨u, hu, hn⟩
    cases hf : find us n with
    | none => exact absurd hn ((find_eq_none_iff us n).mp hf u hu)
    | some v => exact ⟨v, rfl⟩

/-- C7. With the data file readable, `/addUser` answers "User already exists!" if
and only if some stored record has this username, and then nothing is written;
otherwise (the write succeeding) it answers success and saves the old array followed
by the one record `{username, balance: 0, wallet: 0, lastAdded: null}`; in every
case the log is what it was. -/
theorem addUser_duplicate_or_append (env : Env) (s : Files) (username : String)
    (hread : env.readOk = true) :
    ((addUser env username s).1 = Response.json 400 false (some "User already exists!")
      ↔ ∃ u ∈ s.DATA_FILE, u.username = username)
    ∧ ((∃ u ∈ s.DATA_FILE, u.username = username) → (addUser env username s).2 = s)
    ∧ ((¬ ∃ u ∈ s.DATA_FILE, u.username = username) → env.writeOk = true →
        (addUser env username s).1 = Response.json 200 true (some "User added successfully!")
        ∧ (addUser env username s).2.DATA_FILE = s.DATA_FILE ++ [⟨username, 0, 0, none⟩])
    ∧ (addUser env username s).2.TRANSACTION_FILE = s.TRANSACTION_FILE := by
  rw [← find_isSome_iff]
  unfold addUser
  rw [if_pos hread]
  cases hfind : find s.DATA_FILE username with
  | some u => simp
  | none =>
    cases hw : env.writeOk <;> simp

/-- C7, the example of the specification: `createAccount("x")` twice; the second call
is answered "User already exists!" and the array still has one record. -/
theorem addUser_duplicate_or_append_witness :
    (addUser ⟨0, 0, true, true, true⟩ "x" init).2.DATA_FILE = [⟨"x", 0, 0, none⟩]
    ∧ (addUser ⟨0, 0, true, true, true⟩ "x" (addUser ⟨0, 0, true, true, true⟩ "x" init).2).1
        = Response.json 400 false (some "User already exists!")
    ∧ (addUser ⟨0, 0, true, true, true⟩ "x" (addUser ⟨0, 0, true, true, true⟩ "x" init).2).2
        = (addUser ⟨0, 0, true, true, true⟩ "x" init).2 := by
  have h1 := addUser_duplicate_or_append ⟨0, 0, true, true, true⟩ init "x" rfl
  have h2 := addUser_duplicate_or_append ⟨0, 0, true, true, true⟩
    (addUser ⟨0, 0, true, true, true⟩ "x" init).2 "x" rfl
  exact ⟨(h1.2.2.1 (by decide) rfl).2, h2.1.mpr (by decide), h2.2.1 (by decide)⟩

theorem unique_saveAndLog (env : Env) (s : Files) (users : List Account) (message : String)
    (hs : Unique s.DATA_FILE) (hu : Unique users) :
    Unique (saveAndLog env s users message).2.DATA_FILE := by
  rcases saveAndLog_data env s users message with h | h <;> rw [h] <;> assumption

theorem unique_addUser (env : Env) (username : String) (s : Files)
    (hs : Unique s.DATA_FILE) : Unique (addUser env username s).2.DATA_FILE := by
  unfold addUser
  split
  · split
    · exact hs
    · rename_i hnone
      split
      · have hnot : username ∉ usernames s.DATA_FILE :=
          (find_eq_none_iff_not_mem s.DATA_FILE username).mp hnone
        unfold Unique usernames at hs ⊢
        unfold usernames at hnot
        simp only [List.map_append, List.map_cons, List.map_nil]
        rw [List.nodup_append]
        refine ⟨hs, List.nodup_singleton _, ?_⟩
        intro a ha hb
        rw [List.mem_singleton] at hb
        subst hb
        exact hnot ha
      · exact hs
  · exact hs

theorem unique_deposit (env : Env) (username : String) (amount : Int) (s : Files)
    (hs : Unique s.DATA_FILE) : Unique (deposit env username amount s).2.DATA_FILE := by
  unfold deposit
  split
  · split
    · exact hs
    · exact unique_saveAndLog env s _ _ hs
        (unique_modifyFirst username (credit amount) (credit_username amount) _ hs)
  · exact hs

theorem unique_transfer (env : Env) (fromUser toUser : String) (amount : Int) (s : Files)
    (hs : Unique s.DATA_FILE) :
    Unique (transfer env fromUser toUser amount s).2.DATA_FILE := by
  unfold transfer
  split
  · split
    · split
      · exact hs
      · exact unique_saveAndLog env s _ _ hs
          (unique_modifyFirst toUser (credit amount) (credit_username amount) _
            (unique_modifyFirst fromUser (debit amount) (debit_username amount) _ hs))
    · exact hs
  · exact hs

theorem unique_addToWallet (env : Env) (username : String) (amount : Int) (s : Files)
    (hs : Unique s.DATA_FILE) : Unique (addToWallet env username amount s).2.DATA_FILE := by
  unfold addToWallet
  split
  · split
    · exact hs
    · split
      · exact hs
      · exact unique_saveAndLog env s _ _ hs
          (unique_modifyFirst username _ (topUp_username _ _ _) _ hs)
  · exact hs

theorem unique_step (env : Env) (op : Op) (s : Files) (hs : Unique s.DATA_FILE) :
    Unique (step env op s).2.DATA_FILE := by
  cases op with
  | addUser username => exact unique_addUser env username s hs
  | deposit username amount => exact unique_deposit env username amount s hs
  | transfer fromUser toUser amount => exact unique_transfer env fromUser toUser amount s hs
  | getWallet username =>
    show Unique (getWallet env username s).2.DATA_FILE
    unfold getWallet
    split
    · split <;> exact hs
    · exact hs
  | addToWallet username amount => exact unique_addToWallet env username amount s hs
  | listUsers =>
    show Unique (listUsers env s).2.DATA_FILE
    unfold listUsers
    split <;> exact hs

theorem unique_run (requests : List (Env × Op)) (s : Files) (hs : Unique s.DATA_FILE) :
    Unique (run requests s).DATA_FILE := by
  induction requests generalizing s with
  | nil => exact hs
  | cons r rs ih =>
    rw [run_cons]
    exact ih _ (unique_step r.1 r.2 s hs)

/-- C8. If no two stored records share a username, then after any one request
(accepted or rejected, whatever the clock and the file system do) and after any
sequence of requests no two stored records share a username; so this holds in every
state reached from the empty store. -/
theorem unique_invariant (requests : List (Env × Op)) (s : Files)
    (hs : Unique s.DATA_FILE) :
    (∀ (env : Env) (op : Op), Unique (step env op s).2.DATA_FILE)
    ∧ Unique (run requests s).DATA_FILE
    ∧ Unique (run requests init).DATA_FILE :=
  ⟨fun env op => unique_step env op s hs, unique_run requests s hs,
    unique_run requests init List.nodup_nil⟩

/-- C8 on a run with a repeated creation: "a", "b", then "a" again. -/
theorem unique_invariant_witness :
    Unique (run
      [(⟨0, 0, true, true, true⟩, Op.addUser "a"), (⟨0, 0, true, true, true⟩, Op.addUser "b"),
       (⟨0, 0, true, true, true⟩, Op.addUser "a")]
      ⟨[⟨"c", 1, 2, none⟩], ""⟩).DATA_FILE :=
  (unique_invariant
    [(⟨0, 0, true, true, true⟩, Op.addUser "a"), (⟨0, 0, true, true, true⟩, Op.addUser "b"),
     (⟨0, 0, true, true, true⟩, Op.addUser "a")]
    ⟨[⟨"c", 1, 2, none⟩], ""⟩ (by decide)).2.1

/-! ## Deposit -/

/-- C10. With the data file readable, `/deposit` answers "User not found!" if and
only if no stored record has this username, and after that answer the data file and
the log are what they were. -/
theorem deposit_not_found (env : Env) (s : Files) (username : String) (amount : Int)
    (hread : env.readOk = true) :
    ((deposit env username amount s).1 = Response.json 404 false (some "User not found!")
      ↔ ∀ u ∈ s.DATA_FILE, u.username ≠ username)
    ∧ ((deposit env username amount s).1 = Response.json 404 false (some "User not found!")
      → (deposit env username amount s).2 = s) := by
  rw [← find_eq_none_iff]
  unfold deposit
  rw [if_pos hread]
  cases hfind : find s.DATA_FILE username with
  | none => simp
  | some user =>
    have h1 := saveAndLog_ne_failure env s (modifyFirst username (credit amount) s.DATA_FILE)
      ("Deposited " ++ toString amount ++ " to " ++ username)
    simp [h1]

/-- C10, the example of the specification: `deposit("ghost", 10)` on a store without
"ghost" is answered "User not found!" and writes nothing. -/
theorem deposit_not_found_witness :
    (deposit ⟨0, 0, true, true, true⟩ "ghost" 10 ⟨[⟨"a", 1, 2, none⟩], "log\n"⟩).1
        = Response.json 404 false (some "User not found!")
    ∧ (deposit ⟨0, 0, true, true, true⟩ "ghost" 10 ⟨[⟨"a", 1, 2, none⟩], "log\n"⟩).2
        = ⟨[⟨"a", 1, 2, none⟩], "log\n"⟩ := by
  have h := deposit_not_found ⟨0, 0, true, true, true⟩ ⟨[⟨"a", 1, 2, none⟩], "log\n"⟩
    "ghost" 10 rfl
  have h404 := h.1.mpr (by decide)
  exact ⟨h404, h.2 h404⟩

/-! ## Transaction log -/

/-- C12. With the data file readable, `/wallet/:username` answers "User not found!"
if and only if no stored record has this username; otherwise it answers success
with, under the key `balance`, the `wallet` field of the record; and it writes
neither file. -/
theorem getWallet_returns_wallet (env : Env) (s : Files) (username : String)
    (hread : env.readOk = true) :
    ((getWallet env username s).1 = Response.json 404 false (some "User not found!")
      ↔ ∀ u ∈ s.DATA_FILE, u.username ≠ username)
    ∧ (∀ user, find s.DATA_FILE username = some user →
        (getWallet env username s).1 = Response.walletJson user.wallet)
    ∧ (getWallet env username s).2 = s := by
  rw [← find_eq_none_iff]
  unfold getWallet
  rw [if_pos hread]
  cases hfind : find s.DATA_FILE username with
  | none => simp
  | some user => simp

/-- C12 on a record with balance 70 and wallet 15: the answer carries 15. -/
theorem getWallet_returns_wallet_witness :
    (getWallet ⟨0, 0, true, true, true⟩ "a" ⟨[⟨"a", 70, 15, none⟩], ""⟩).1
        = Response.walletJson 15
    ∧ (getWallet ⟨0, 0, true, true, true⟩ "ghost" ⟨[⟨"a", 70, 15, none⟩], ""⟩).1
        = Response.json 404 false (some "User not found!") := by
  have h := getWallet_returns_wallet ⟨0, 0, true, true, true⟩ ⟨[⟨"a", 70, 15, none⟩], ""⟩
    "a" rfl
  have g := getWallet_returns_wallet ⟨0, 0, true, true, true⟩ ⟨[⟨"a", 70, 15, none⟩], ""⟩
    "ghost" rfl
  exact ⟨h.2.1 ⟨"a", 70, 15, none⟩ (by decide), g.1.mpr (by decide)⟩

/-- C13, as stated, fails: the cap rejection of a top-up of 20 on a wallet of 90 funded
at the same instant carries a message that is not "Monthly limit of 100 exceeded!". -/
theorem cap_message_counterexample :
    (addToWallet ⟨7, 8, true, true, true⟩ "a" 20 ⟨[⟨"a", 0, 90, some 7⟩], ""⟩).1
        = Response.json 400 false (some "Monthly limit of $100 exceeded!")
    ∧ (addToWallet ⟨7, 8, true, true, true⟩ "a" 20 ⟨[⟨"a", 0, 90, some 7⟩], ""⟩).1
        ≠ Response.json 400 false (some "Monthly limit of 100 exceeded!") := by
  decide

/-- C13, amended. Whenever `/addToWallet` rejects because the cap would be exceeded
(the user exists, fewer than 30 whole days have elapsed and `amount + wallet > 100`),
the message it returns is exactly "Monthly limit of $100 exceeded!", with the dollar
sign, under status 400. -/
theorem cap_message (env : Env) (s : Files) (username : String) (amount : Int)
    (user : Account) (hread : env.readOk = true)
    (hfind : find s.DATA_FILE username = some user)
    (hdays : daysElapsed env.now user.lastAdded < 30)
    (hcap : amount + user.wallet > 100) :
    (addToWallet env username amount s).1
      = Response.json 400 false (some "Monthly limit of $100 exceeded!") := by
  unfold addToWallet
  rw [if_pos hread, hfind]
  simp only [if_pos (And.intro hdays hcap)]

/-- C13, amended, on the 90-then-20 example. -/
theorem cap_message_witness :
    (addToWallet ⟨7, 8, true, true, true⟩ "a" 20 ⟨[⟨"a", 0, 90, some 7⟩], ""⟩).1
      = Response.json 400 false (some "Monthly limit of $100 exceeded!") :=
  cap_message ⟨7, 8, true, true, true⟩ ⟨[⟨"a", 0, 90, some 7⟩], ""⟩ "a" 20
    ⟨"a", 0, 90, some 7⟩ rfl (by decide) (by decide) (by decide)

theorem balances_modifyFirst (n : String) (f : Account → Account)
    (hf : ∀ u, (f u).username = u.username ∧ (f u).balance = u.balance)
    (us : List Account) : balances (modifyFirst n f us) = balances us := by
  induction us with
  | nil => rfl
  | cons a as ih =>
    simp only [modifyFirst]
    by_cases ha : a.username = n
    · rw [if_pos ha]
      simp only [balances, List.map_cons, (hf a).1, (hf a).2]
    · rw [if_neg ha]
      simp only [balances, List.map_cons] at ih ⊢
      rw [ih]

/-- C14. `/addUser`, `/addToWallet`, `/wallet/:username` and `/users` leave the balance
of every stored record as it was, whatever the input, the clock and the file system:
after `/addUser` the old username-balance list is the beginning of the new one, and
after the other three it is the new one. -/
theorem balance_frame (env : Env) (s : Files) :
    (∀ username, ∃ added,
      balances (addUser env username s).2.DATA_FILE = balances s.DATA_FILE ++ added)
    ∧ (∀ username amount,
      balances (addToWallet env username amount s).2.DATA_FILE = balances s.DATA_FILE)
    ∧ (∀ username, balances (getWallet env username s).2.DATA_FILE = balances s.DATA_FILE)
    ∧ balances (listUsers env s).2.DATA_FILE = balances s.DATA_FILE := by
  refine ⟨?_, ?_, ?_, ?_⟩
  · intro username
    unfold addUser
    split
    · split
      · exact ⟨[], by simp⟩
      · split
        · exact ⟨[(username, 0)], by simp [balances]⟩
        · exact ⟨[], by simp⟩
    · exact ⟨[], by simp⟩
  · intro username amount
    unfold addToWallet
    split
    · split
      · rfl
      · split
        · rfl
        · rename_i user _ _
          rcases saveAndLog_data env s
            (modifyFirst username (topUp (daysElapsed env.now user.lastAdded) amount env.now)
              s.DATA_FILE)
            ("Added " ++ toString amount ++ " to " ++ username ++ "\x27s wallet") with h | h
          · rw [h]
          · rw [h]
            exact balances_modifyFirst username
              (topUp (daysElapsed env.now user.lastAdded) amount env.now)
              (fun _ => ⟨rfl, rfl⟩) _
    · rfl
  · intro username
    unfold getWallet
    split
    · split <;> rfl
    · rfl
  · unfold listUsers
    split <;> rfl

/-- C15. With the data file readable, `/users` answers with the stored array as it
is (every record, in stored order) and writes neither file, so a second call right
after the first gives the same answer. -/
theorem listUsers_returns_all (env env2 : Env) (s : Files)
    (hread : env.readOk = true) (hread2 : env2.readOk = true) :
    (listUsers env s).1 = Response.usersJson s.DATA_FILE
    ∧ (listUsers env s).2 = s
    ∧ (listUsers env2 (listUsers env s).2).1 = (listUsers env s).1 := by
  unfold listUsers
  rw [if_pos hread, if_pos hread2]
  exact ⟨rfl, rfl, rfl⟩

/-- C15 on two records, called at two different times. -/
theorem listUsers_returns_all_witness :
    (listUsers ⟨1, 1, true, true, true⟩ ⟨[⟨"b", 1, 2, none⟩, ⟨"a", 3, 4, some 5⟩], "x\n"⟩).1
        = Response.usersJson [⟨"b", 1, 2, none⟩, ⟨"a", 3, 4, some 5⟩]
    ∧ (listUsers ⟨9, 9, true, false, false⟩
        (listUsers ⟨1, 1, true, true, true⟩
          ⟨[⟨"b", 1, 2, none⟩, ⟨"a", 3, 4, some 5⟩], "x\n"⟩).2).1
        = Response.usersJson [⟨"b", 1, 2, none⟩, ⟨"a", 3, 4, some 5⟩] := by
  have h := listUsers_returns_all ⟨1, 1, true, true, true⟩ ⟨9, 9, true, false, false⟩
    ⟨[⟨"b", 1, 2, none⟩, ⟨"a", 3, 4, some 5⟩], "x\n"⟩ rfl rfl
  exact ⟨h.1, h.2.2.trans h.1⟩

/-! ## A failing log append -/

/-- With the data file read and written and `appendFileSync` throwing, the tail of the
mutating handlers saves the array and then leaves the handler by the exception. -/
theorem saveAndLog_append_fails (env : Env) (s : Files) (users : List Account)
    (message : String) (hwrite : env.writeOk = true) (happend : env.appendOk = false) :
    saveAndLog env s users message = (Response.uncaught, ⟨users, s.TRANSACTION_FILE⟩) := by
  simp [saveAndLog, logTransaction, hwrite, happend]

/-- C16, as stated, fails: a deposit of 5 whose data-file write succeeds and whose log
append throws does not answer `{ success: true }`; the exception leaves the handler.
The saved balance of 5 is retained and the log is not extended. -/
theorem append_failure_counterexample :
    (deposit ⟨0, 0, true, true, false⟩ "a" 5 ⟨[⟨"a", 0, 0, none⟩], ""⟩).1
        ≠ Response.json 200 true none
    ∧ (deposit ⟨0, 0, true, true, false⟩ "a" 5 ⟨[⟨"a", 0, 0, none⟩], ""⟩).1
        = Response.uncaught
    ∧ (deposit ⟨0, 0, true, true, false⟩ "a" 5 ⟨[⟨"a", 0, 0, none⟩], ""⟩).2
        = ⟨[⟨"a", 5, 0, none⟩], ""⟩ := by
  decide

/-- C16, amended. If the log append throws after the data file was saved, then each of
`/deposit`, `/transfer` and `/addToWallet` (its checks passed) sends no
`{ success: true }`: the exception leaves the handler; the saved array is retained
and the log is what it was. -/
theorem append_failure (env : Env) (s : Files)
    (hread : env.readOk = true) (hwrite : env.writeOk = true)
    (happend : env.appendOk = false) :
    (∀ username amount user, find s.DATA_FILE username = some user →
      deposit env username amount s
        = (Response.uncaught,
            ⟨modifyFirst username (credit amount) s.DATA_FILE, s.TRANSACTION_FILE⟩))
    ∧ (∀ fromUser toUser amount sender receiver,
      find s.DATA_FILE fromUser = some sender → find s.DATA_FILE toUser = some receiver →
      amount ≤ sender.balance →
      transfer env fromUser toUser amount s
        = (Response.uncaught,
            ⟨modifyFirst toUser (credit amount)
              (modifyFirst fromUser (debit amount) s.DATA_FILE), s.TRANSACTION_FILE⟩))
    ∧ (∀ username amount user, find s.DATA_FILE username = some user →
      ¬ (daysElapsed env.now user.lastAdded < 30 ∧ amount + user.wallet > 100) →
      addToWallet env username amount s
        = (Response.uncaught,
            ⟨modifyFirst username (topUp (daysElapsed env.now user.lastAdded) amount env.now)
              s.DATA_FILE, s.TRANSACTION_FILE⟩)) := by
  refine ⟨?_, ?_, ?_⟩
  · intro username amount user hfind
    unfold deposit
    rw [if_pos hread, hfind]
    exact saveAndLog_append_fails env s _ _ hwrite happend
  · intro fromUser toUser amount sender receiver hfrom hto hbal
    unfold transfer
    rw [if_pos hread, hfrom, hto]
    simp only [if_neg (not_lt.mpr hbal)]
    exact saveAndLog_append_fails env s _ _ hwrite happend
  · intro username amount user hfind hcap
    unfold addToWallet
    rw [if_pos hread, hfind]
    simp only [if_neg hcap]
    exact saveAndLog_append_fails env s _ _ hwrite happend

/-- C16, amended, on a transfer of 40 from A (100) to B (0) whose log append throws. -/
theorem append_failure_witness :
    transfer ⟨0, 0, true, true, false⟩ "A" "B" 40
        ⟨[⟨"A", 100, 0, none⟩, ⟨"B", 0, 0, none⟩], "old line\n"⟩
      = (Response.uncaught, ⟨[⟨"A", 60, 0, none⟩, ⟨"B", 40, 0, none⟩], "old line\n"⟩) :=
  ((append_failure ⟨0, 0, true, true, false⟩
      ⟨[⟨"A", 100, 0, none⟩, ⟨"B", 0, 0, none⟩], "old line\n"⟩ rfl rfl rfl).2.1
      "A" "B" 40 ⟨"A", 100, 0, none⟩ ⟨"B", 0, 0, none⟩
      (by decide) (by decide) (by decide)).trans (by decide)

/-! ## The 30-day window -/

theorem daysElapsed_some (now t : Int) :
    daysElapsed now (some t) = (now - t) / 86400000 := by
  unfold daysElapsed
  simp only
  rw [Int.fdiv_eq_ediv _ (by decide)]
  rfl

/-- C17. The window test uses `floor((now - lastAdded) / 86400000)`: for a record whose
`lastAdded` is `t`, `daysElapsed >= 30` holds if and only if `now - t >= 2592000000`.
So (file system working) a top-up at least 2592000000 ms after `t` always succeeds and
leaves the wallet equal to the amount alone, while an earlier top-up, also one made
before `t`, succeeds exactly when `wallet + amount <= 100`. -/
theorem window_threshold (env : Env) (s : Files) (username : String) (amount : Int)
    (user : Account) (t : Int)
    (hfs : FsWorks env) (hfind : find s.DATA_FILE username = some user)
    (hlast : user.lastAdded = some t) :
    daysElapsed env.now user.lastAdded = Int.fdiv (env.now - t) 86400000
    ∧ (30 ≤ daysElapsed env.now user.lastAdded ↔ 2592000000 ≤ env.now - t)
    ∧ (2592000000 ≤ env.now - t →
        (addToWallet env username amount s).1 = Response.json 200 true none
        ∧ find (addToWallet env username amount s).2.DATA_FILE username
            = some { user with wallet := amount, lastAdded := some env.now })
    ∧ (env.now - t < 2592000000 →
        ((addToWallet env username amount s).1 = Response.json 200 true none
          ↔ user.wallet + amount ≤ 100)
        ∧ ((addToWallet env username amount s).1
            = Response.json 400 false (some "Monthly limit of $100 exceeded!")
          ↔ 100 < user.wallet + amount)) := by
  have hd : daysElapsed env.now user.lastAdded = (env.now - t) / 86400000 := by
    rw [hlast]
    exact daysElapsed_some env.now t
  refine ⟨?_, ?_, ?_, ?_⟩
  · rw [hlast]
    rfl
  · rw [hd]
    omega
  · intro hge
    have h30 : daysElapsed env.now user.lastAdded ≥ 30 := by
      rw [hd]
      omega
    have hcap : ¬ (daysElapsed env.now user.lastAdded < 30 ∧ amount + user.wallet > 100) := by
      omega
    rw [addToWallet_accepts env s username amount user hfs hfind hcap]
    refine ⟨rfl, ?_⟩
    show find (modifyFirst username _ s.DATA_FILE) username = _
    rw [find_modifyFirst_same username _ (topUp_username _ _ _), hfind]
    simp [topUp, h30]
  · intro hlt
    have h30 : daysElapsed env.now user.lastAdded < 30 := by
      rw [hd]
      omega
    by_cases hle : user.wallet + amount ≤ 100
    · have hcap : ¬ (daysElapsed env.now user.lastAdded < 30 ∧ amount + user.wallet > 100) := by
        omega
      rw [addToWallet_accepts env s username amount user hfs hfind hcap]
      refine ⟨⟨fun _ => hle, fun _ => rfl⟩, ⟨fun h => ?_, fun h => ?_⟩⟩
      · simp at h
      · omega
    · have hcap : daysElapsed env.now user.lastAdded < 30 ∧ amount + user.wallet > 100 := by
        omega
      rw [addToWallet_rejects env s username amount user hfs.1 hfind hcap]
      refine ⟨⟨fun h => ?_, fun h => absurd h hle⟩, ⟨fun _ => by omega, fun _ => rfl⟩⟩
      simp at h

/-- C17 at the boundary, wallet 90 funded at time 1000 and topped up by 50: at exactly
30 days the wallet is reset and holds 50; one millisecond earlier, and also one day
before the funding time, the top-up is refused by the cap. -/
theorem window_threshold_witness :
    find (addToWallet ⟨1000 + 2592000000, 0, true, true, true⟩ "a" 50
        ⟨[⟨"a", 0, 90, some 1000⟩], ""⟩).2.DATA_FILE "a"
      = some ⟨"a", 0, 50, some (1000 + 2592000000)⟩
    ∧ (addToWallet ⟨1000 + 2592000000 - 1, 0, true, true, true⟩ "a" 50
        ⟨[⟨"a", 0, 90, some 1000⟩], ""⟩).1
      = Response.json 400 false (some "Monthly limit of $100 exceeded!")
    ∧ (addToWallet ⟨1000 - 86400000, 0, true, true, true⟩ "a" 50
        ⟨[⟨"a", 0, 90, some 1000⟩], ""⟩).1
      = Response.json 400 false (some "Monthly limit of $100 exceeded!") :=
  ⟨((window_threshold ⟨1000 + 2592000000, 0, true, true, true⟩
        ⟨[⟨"a", 0, 90, some 1000⟩], ""⟩ "a" 50 ⟨"a", 0, 90, some 1000⟩ 1000
        (by decide) (by decide) rfl).2.2.1 (by decide)).2,
   ((window_threshold ⟨1000 + 2592000000 - 1, 0, true, true, true⟩
        ⟨[⟨"a", 0, 90, some 1000⟩], ""⟩ "a" 50 ⟨"a", 0, 90, some 1000⟩ 1000
        (by decide) (by decide) rfl).2.2.2 (by decide)).2.mpr (by decide),
   ((window_threshold ⟨1000 - 86400000, 0, true, true, true⟩
        ⟨[⟨"a", 0, 90, some 1000⟩], ""⟩ "a" 50 ⟨"a", 0, 90, some 1000⟩ 1000
        (by decide) (by decide) rfl).2.2.2 (by decide)).2.mpr (by decide)⟩

/-! ## Negative amounts, conservation and the cap after the window -/

/-- C20. The cap is not enforced once the window has elapsed: on the store reached by
creating "a" (its `lastAdded` is null), `addToWallet("a", 500)` answers
`{ success: true }` and leaves the wallet of "a" at 500, above 100. -/
theorem cap_not_enforced_after_window :
    ∃ (requests : List (Env × Op)) (env : Env) (username : String) (amount : Int)
      (user after : Account),
      find (run requests init).DATA_FILE username = some user
      ∧ user.lastAdded = none
      ∧ amount > 100
      ∧ (addToWallet env username amount (run requests init)).1 = Response.json 200 true none
      ∧ find (addToWallet env username amount (run requests init)).2.DATA_FILE username
          = some after
      ∧ after.wallet = amount
      ∧ after.wallet > 100 :=
  ⟨[(⟨0, 0, true, true, true⟩, Op.addUser "a")], ⟨1000, 2000, true, true, true⟩, "a", 500,
    ⟨"a", 0, 0, none⟩, ⟨"a", 0, 500, some 1000⟩,
    by decide, rfl, by decide, by decide, by decide, rfl, by decide⟩

end RTRCoin
